import Mathlib

/-!
Shallow embedding of the artifact-generation saga of the deployments
repository: the `GenerateArtifact` orchestrator, its collaborator
interfaces (metadata store, object storage, workflow trigger client) and
the data model (`model.MultipartGenerateArtifactMsg`, `model.Link`).

The orchestrator implementation (`app` package) and the workflows client
(`client/workflows/client.go`) are not part of the reviewed sources; only
their tests (`client/workflows/client_test.go`), the data model
(`model/artifact.go`) and the identity middleware are. The orchestrator
and the client are therefore modelled from the specification, except
where the repository's own tests pin the behaviour (mock expectations
and exact error texts), in which case the tests take precedence.

External collaborators are modelled as an environment record fixing the
result of each collaborator call; the orchestrator is a pure function of
the environment and the request, returning the artifact id, the returned
error (Go errors are modelled by their text, `none` standing for `nil`)
and the ordered trace of collaborator calls it performed.
-/

/-- Identity carried on the request context, from the identity package:
the saga reads only the `Tenant` field, the others feed the logging
middleware. -/
structure Identity where
  Subject : String
  Tenant : String
  IsUser : Bool
  IsDevice : Bool
  Plan : String

/-- Modelled from the spec: `model.Link`, the SignedLink `{uri, expiry}`
pair returned by `GetRequest` and `DeleteRequest` (tests construct it as
`model.Link{Uri: "GET"}`). -/
structure Link where
  Uri : String
  Expire : Int

/-- Translated from `model/artifact.go`: `model.MultipartGenerateArtifactMsg`,
the fields extracted from the multipart artifact-generation request.
`FileReader` is an `io.Reader`; it is modelled as the list of bytes the
underlying stream offers. The Go field `Type` is spelled `Typ` because
`Type` is reserved in Lean. -/
structure MultipartGenerateArtifactMsg where
  Name : String
  Description : String
  Size : Int
  DeviceTypesCompatible : List String
  Typ : String
  Args : String
  ArtifactID : String
  GetArtifactURI : String
  DeleteArtifactURI : String
  TenantID : String
  Token : String
  FileReader : List Nat

/-- Modelled from the spec: the configured maximum declared payload size
(`MaxImageSize`, the "configured maximum" of the validation stage);
10 GiB in the bytes-per-GiB convention used by the service. -/
def MaxImageSize : Int := 10 * 1024 * 1024 * 1024

/-- Modelled from the spec: the `MalformedRequest` error value
(`ErrModelMultipartUploadMsgMalformed`), returned for a nil request. -/
def ErrModelMultipartUploadMsgMalformed : String :=
  "Cannot parse multipart form"

/-- Modelled from the spec: the `PayloadTooLarge` error value
(`ErrModelArtifactFileTooLarge`). -/
def ErrModelArtifactFileTooLarge : String :=
  "Artifact file too large"

/-- Modelled from the spec: the `NotUnique` error value
(`ErrModelArtifactNotUnique`). -/
def ErrModelArtifactNotUnique : String :=
  "Artifact not unique"

/-- Modelled from the spec: the content type attached to the raw upload
(`ArtifactContentType`); an opaque constant as far as the saga goes. -/
def ArtifactContentType : String := "application/vnd.mender-artifact"

/-- The text of `errors.Wrap(err, message)` from pkg/errors: the wrapping
message first, then a colon and the wrapped cause. -/
def wrap (cause : String) (message : String) : String :=
  message ++ ": " ++ cause

/-- Translated from Go's `io.LimitedReader` as the tests pin it
(`*io.LimitedReader` is the reader handed to `UploadArtifact`): `R` is
the remaining content of the underlying stream, `N` the remaining byte
quota. -/
structure LimitedReader where
  R : List Nat
  N : Int

/-- Every byte a full drain of an `io.LimitedReader` can produce: at most
`N` bytes of the underlying stream (none when `N` is not positive). -/
def LimitedReader.readAll (r : LimitedReader) : List Nat :=
  r.R.take r.N.toNat

/-- One collaborator call performed by the saga, in the order issued:
metadata store uniqueness query, object-storage upload / signed-link /
delete operations, and the workflow submission. -/
inductive Call where
  | isArtifactUnique (name : String) (deviceTypes : List String)
  | uploadArtifact (objectID : String) (size : Int) (file : LimitedReader)
      (contentType : String)
  | getRequest (objectID : String)
  | deleteRequest (objectID : String)
  | startGenerateArtifact (msg : MultipartGenerateArtifactMsg)
  | delete (objectID : String)

/-- The environment of one saga run: the outcome each collaborator call
would produce, the identity on the execution context, and the freshly
generated UUID for the artifact id. `Option String` outcomes are the
error returned (`none` = `nil`); `Except` outcomes carry a payload on
success. -/
structure CollaboratorEnv where
  isArtifactUnique : Except String Bool
  uploadArtifact : Option String
  getRequest : Except String Link
  deleteRequest : Except String Link
  startGenerateArtifact : Option String
  delete : Option String
  identityFromContext : Option Identity
  newUUID : String

/-- Result of one `GenerateArtifact` run: the returned artifact id, the
returned error (`none` = `nil`) and the trace of collaborator calls. -/
structure SagaResult where
  artifactID : String
  err : Option String
  calls : List Call

/-- Modelled from the spec: the `app` package's
`GenerateArtifact(ctx, multipartGenerateArtifact)` orchestrator, absent
from the reviewed sources. Stage order and validation follow the spec;
exact error texts, the `*io.LimitedReader` upload wrapper, the raw
(unwrapped) errors at the signed-link stages with no compensating
delete there, and the `errors.Wrap(err, cleanupErr.Error())` shape of a
failed compensation follow the repository's tests, which pin them. -/
def GenerateArtifact (env : CollaboratorEnv)
    (req : Option MultipartGenerateArtifactMsg) : SagaResult :=
  match req with
  | none => ⟨"", some ErrModelMultipartUploadMsgMalformed, []⟩
  | some msg =>
    if MaxImageSize < msg.Size then
      ⟨"", some ErrModelArtifactFileTooLarge, []⟩
    else
      let artifactID := env.newUUID
      let calls0 := [Call.isArtifactUnique msg.Name msg.DeviceTypesCompatible]
      match env.isArtifactUnique with
      | Except.error e =>
          ⟨"", some (wrap e "Fail to check if artifact is unique"), calls0⟩
      | Except.ok false => ⟨"", some ErrModelArtifactNotUnique, calls0⟩
      | Except.ok true =>
        let file : LimitedReader := ⟨msg.FileReader, msg.Size⟩
        let calls1 := calls0 ++
          [Call.uploadArtifact artifactID msg.Size file ArtifactContentType]
        match env.uploadArtifact with
        | some e => ⟨"", some e, calls1⟩
        | none =>
          let tenant :=
            match env.identityFromContext with
            | some idty => idty.Tenant
            | none => ""
          let calls2 := calls1 ++ [Call.getRequest artifactID]
          match env.getRequest with
          | Except.error e => ⟨"", some e, calls2⟩
          | Except.ok getLink =>
            let calls3 := calls2 ++ [Call.deleteRequest artifactID]
            match env.deleteRequest with
            | Except.error e => ⟨"", some e, calls3⟩
            | Except.ok deleteLink =>
              let outMsg := { msg with
                ArtifactID := artifactID
                TenantID := tenant
                GetArtifactURI := getLink.Uri
                DeleteArtifactURI := deleteLink.Uri }
              let calls4 := calls3 ++ [Call.startGenerateArtifact outMsg]
              match env.startGenerateArtifact with
              | some e =>
                let calls5 := calls4 ++ [Call.delete artifactID]
                match env.delete with
                | some cleanupErr => ⟨"", some (wrap e cleanupErr), calls5⟩
                | none => ⟨"", some e, calls5⟩
              | none => ⟨artifactID, none, calls4⟩

/-- The HTTP response the workflow engine answers with (only the status
code matters to the client). -/
structure HTTPResponse where
  StatusCode : Nat

/-- Go's `http.StatusCreated`, the "accepted" answer of the workflow
engine. -/
def StatusCreated : Nat := 201

/-- Modelled from the spec: the workflows client's
`StartGenerateArtifact` (`client/workflows/client.go`, absent from the
reviewed sources): it POSTs the message and succeeds only when the
engine answers 201 Created; any other status yields the error
"failed to start workflow: generate_artifact" (text pinned by the
tests), and a transport failure surfaces the transport error. The
argument is the outcome of the HTTP round trip. -/
def StartGenerateArtifact (httpResult : Except String HTTPResponse) :
    Option String :=
  match httpResult with
  | Except.error e => some e
  | Except.ok resp =>
      if resp.StatusCode = StatusCreated then none
      else some "failed to start workflow: generate_artifact"

/-- JSON values occurring in the encoded build-request message. -/
inductive JsonVal where
  | str (s : String)
  | num (n : Int)
  | arr (elems : List String)

/-- Translated from the json struct tags of
`model.MultipartGenerateArtifactMsg` (`model/artifact.go` lines
145-158): the key/value pairs `encoding/json` emits, in declaration
order. `FileReader` is tagged `json:"-"` and therefore omitted. -/
def marshalMultipartGenerateArtifactMsg
    (m : MultipartGenerateArtifactMsg) : List (String × JsonVal) :=
  [("name", JsonVal.str m.Name),
   ("description", JsonVal.str m.Description),
   ("size", JsonVal.num m.Size),
   ("device_types_compatible", JsonVal.arr m.DeviceTypesCompatible),
   ("type", JsonVal.str m.Typ),
   ("args", JsonVal.str m.Args),
   ("artifact_id", JsonVal.str m.ArtifactID),
   ("get_artifact_uri", JsonVal.str m.GetArtifactURI),
   ("delete_artifact_uri", JsonVal.str m.DeleteArtifactURI),
   ("tenant_id", JsonVal.str m.TenantID),
   ("token", JsonVal.str m.Token)]

/-- The object-storage keys deleted along a trace. -/
def deleteKeys (calls : List Call) : List String :=
  calls.filterMap fun c =>
    match c with
    | Call.delete k => some k
    | _ => none

/-- The object-storage keys uploaded to along a trace. -/
def uploadKeys (calls : List Call) : List String :=
  calls.filterMap fun c =>
    match c with
    | Call.uploadArtifact k _ _ _ => some k
    | _ => none

/-- The readers handed to `UploadArtifact` along a trace. -/
def uploadFiles (calls : List Call) : List LimitedReader :=
  calls.filterMap fun c =>
    match c with
    | Call.uploadArtifact _ _ f _ => some f
    | _ => none

/-- The build-request messages submitted to the workflow trigger client
along a trace. -/
def submittedMsgs (calls : List Call) : List MultipartGenerateArtifactMsg :=
  calls.filterMap fun c =>
    match c with
    | Call.startGenerateArtifact m => some m
    | _ => none

/-- The calls of a trace that hit Object Storage or the Workflow Trigger
Client (everything except the metadata-store uniqueness query). -/
def storageOrWorkflowCalls (calls : List Call) : List Call :=
  calls.filter fun c =>
    match c with
    | Call.isArtifactUnique _ _ => false
    | _ => true

/-- Concrete request fixture mirroring the one the repository's tests
build (name "name", one compatible device type, declared size 10, the
bytes of "123456790" on the stream). -/
def msgFix : MultipartGenerateArtifactMsg :=
  { Name := "name"
    Description := "description"
    Size := 10
    DeviceTypesCompatible := ["Beagle Bone"]
    Typ := "single_file"
    Args := ""
    ArtifactID := ""
    GetArtifactURI := ""
    DeleteArtifactURI := ""
    TenantID := ""
    Token := ""
    FileReader := [49, 50, 51, 52, 53, 54, 55, 57, 48] }

/-- Concrete freshly generated artifact id fixture. -/
def uuidFix : String := "3f2504e0-4f89-41d3-9a0c-0305e82c3301"

/-- Concrete all-collaborators-succeed environment fixture. -/
def envFix : CollaboratorEnv :=
  { isArtifactUnique := Except.ok true
    uploadArtifact := none
    getRequest := Except.ok ⟨"GET", 0⟩
    deleteRequest := Except.ok ⟨"DELETE", 0⟩
    startGenerateArtifact := none
    delete := none
    identityFromContext := none
    newUUID := uuidFix }

/-- C1 (counterexample): on a run that passes the uniqueness check and
the upload but fails at the signed-GET-link stage, Object Storage's
`Delete` is never called (zero deletes, not exactly one) and the raw
get-link error is returned, as the tests
`TestGenerateArtifactErrorS3GetRequest` pin (no `Delete` mock is
registered and the unwrapped error text is asserted). -/
theorem generateArtifact_getLinkFailure_compensation_cex :
    (GenerateArtifact
      { envFix with getRequest := Except.error "error get request" }
      (some msgFix)).err = some "error get request"
    ∧ uploadKeys (GenerateArtifact
      { envFix with getRequest := Except.error "error get request" }
      (some msgFix)).calls = [uuidFix]
    ∧ deleteKeys (GenerateArtifact
      { envFix with getRequest := Except.error "error get request" }
      (some msgFix)).calls = [] := by
  refine ⟨?_, ?_, ?_⟩ <;> rfl

/-- C1 (amended): for every request that passes the uniqueness check and
the upload stage but then fails at the signed-GET-link stage,
`GenerateArtifact` performs no compensation: Object Storage's `Delete`
is not called at all, and the original get-link error is returned
unchanged together with an empty artifact id. -/
theorem generateArtifact_getLinkFailure_no_compensation
    (msg : MultipartGenerateArtifactMsg) (uuid e : String)
    (dreq : Except String Link) (sub del : Option String)
    (idty : Option Identity)
    (hsize : msg.Size ≤ MaxImageSize) :
    (GenerateArtifact
      ⟨Except.ok true, none, Except.error e, dreq, sub, del, idty, uuid⟩
      (some msg)).artifactID = ""
    ∧ (GenerateArtifact
      ⟨Except.ok true, none, Except.error e, dreq, sub, del, idty, uuid⟩
      (some msg)).err = some e
    ∧ uploadKeys (GenerateArtifact
      ⟨Except.ok true, none, Except.error e, dreq, sub, del, idty, uuid⟩
      (some msg)).calls = [uuid]
    ∧ deleteKeys (GenerateArtifact
      ⟨Except.ok true, none, Except.error e, dreq, sub, del, idty, uuid⟩
      (some msg)).calls = [] := by
  refine ⟨?_, ?_, ?_, ?_⟩ <;>
    simp [GenerateArtifact, not_lt.mpr hsize, uploadKeys, deleteKeys]

/-- C1 (witness): the amended statement instantiated on the concrete
fixture run. -/
theorem generateArtifact_getLinkFailure_no_compensation_witness :
    (GenerateArtifact
      ⟨Except.ok true, none, Except.error "error get request",
        Except.ok ⟨"DELETE", 0⟩, none, none, none, uuidFix⟩
      (some msgFix)).artifactID = ""
    ∧ (GenerateArtifact
      ⟨Except.ok true, none, Except.error "error get request",
        Except.ok ⟨"DELETE", 0⟩, none, none, none, uuidFix⟩
      (some msgFix)).err = some "error get request"
    ∧ uploadKeys (GenerateArtifact
      ⟨Except.ok true, none, Except.error "error get request",
        Except.ok ⟨"DELETE", 0⟩, none, none, none, uuidFix⟩
      (some msgFix)).calls = [uuidFix]
    ∧ deleteKeys (GenerateArtifact
      ⟨Except.ok true, none, Except.error "error get request",
        Except.ok ⟨"DELETE", 0⟩, none, none, none, uuidFix⟩
      (some msgFix)).calls = [] :=
  generateArtifact_getLinkFailure_no_compensation msgFix uuidFix
    "error get request" (Except.ok ⟨"DELETE", 0⟩) none none none (by decide)

/-- C2: when the workflow submission fails and the compensating `Delete`
of the uploaded object also fails, `GenerateArtifact` returns a single
error whose text is the delete-failure message, a colon and the original
submission failure (`errors.Wrap(err, cleanupErr.Error())`), with an
empty artifact id, after exactly one `Delete` of the uploaded key. -/
theorem generateArtifact_compensation_failure_error_text
    (msg : MultipartGenerateArtifactMsg) (uuid se de : String)
    (gl dl : Link) (idty : Option Identity)
    (hsize : msg.Size ≤ MaxImageSize) :
    (GenerateArtifact
      ⟨Except.ok true, none, Except.ok gl, Except.ok dl,
        some se, some de, idty, uuid⟩ (some msg)).artifactID = ""
    ∧ (GenerateArtifact
      ⟨Except.ok true, none, Except.ok gl, Except.ok dl,
        some se, some de, idty, uuid⟩ (some msg)).err
      = some (de ++ ": " ++ se)
    ∧ deleteKeys (GenerateArtifact
      ⟨Except.ok true, none, Except.ok gl, Except.ok dl,
        some se, some de, idty, uuid⟩ (some msg)).calls = [uuid] := by
  refine ⟨?_, ?_, ?_⟩ <;>
    simp [GenerateArtifact, not_lt.mpr hsize, wrap, deleteKeys]

/-- C2 (witness): with delete error "unable to remove the file" and
submission error "failed to start workflow: generate_artifact" the
returned error text is exactly
"unable to remove the file: failed to start workflow: generate_artifact". -/
theorem generateArtifact_compensation_failure_error_text_witness :
    (GenerateArtifact
      ⟨Except.ok true, none, Except.ok ⟨"GET", 0⟩, Except.ok ⟨"DELETE", 0⟩,
        some "failed to start workflow: generate_artifact",
        some "unable to remove the file", none, uuidFix⟩
      (some msgFix)).artifactID = ""
    ∧ (GenerateArtifact
      ⟨Except.ok true, none, Except.ok ⟨"GET", 0⟩, Except.ok ⟨"DELETE", 0⟩,
        some "failed to start workflow: generate_artifact",
        some "unable to remove the file", none, uuidFix⟩
      (some msgFix)).err
      = some "unable to remove the file: failed to start workflow: generate_artifact"
    ∧ deleteKeys (GenerateArtifact
      ⟨Except.ok true, none, Except.ok ⟨"GET", 0⟩, Except.ok ⟨"DELETE", 0⟩,
        some "failed to start workflow: generate_artifact",
        some "unable to remove the file", none, uuidFix⟩
      (some msgFix)).calls = [uuidFix] :=
  generateArtifact_compensation_failure_error_text msgFix uuidFix
    "failed to start workflow: generate_artifact" "unable to remove the file"
    ⟨"GET", 0⟩ ⟨"DELETE", 0⟩ none (by decide)

/-- C3: a request whose declared size exceeds the configured maximum is
rejected with `ErrModelArtifactFileTooLarge`, an empty artifact id and
an empty collaborator-call trace, and a nil request is rejected with
`ErrModelMultipartUploadMsgMalformed`, likewise before any side
effect. -/
theorem generateArtifact_validation_rejects_before_side_effects
    (env : CollaboratorEnv) (msg : MultipartGenerateArtifactMsg)
    (hsize : MaxImageSize < msg.Size) :
    GenerateArtifact env (some msg) =
      ⟨"", some ErrModelArtifactFileTooLarge, []⟩
    ∧ GenerateArtifact env none =
      ⟨"", some ErrModelMultipartUploadMsgMalformed, []⟩ := by
  exact ⟨by simp [GenerateArtifact, hsize], rfl⟩

/-- C3 (witness): the validation statement instantiated at declared size
`MaxImageSize + 1`. -/
theorem generateArtifact_validation_rejects_before_side_effects_witness :
    GenerateArtifact envFix (some { msgFix with Size := MaxImageSize + 1 }) =
      ⟨"", some ErrModelArtifactFileTooLarge, []⟩
    ∧ GenerateArtifact envFix none =
      ⟨"", some ErrModelMultipartUploadMsgMalformed, []⟩ :=
  generateArtifact_validation_rejects_before_side_effects envFix
    { msgFix with Size := MaxImageSize + 1 } (by decide)

/-- C4: when the metadata store reports a conflict (`IsArtifactUnique`
returns false with nil error) the saga returns `ErrModelArtifactNotUnique`
with an empty artifact id and the trace holds only the uniqueness query,
so Object Storage and the Workflow Trigger Client are never called; when
the store query itself errors, the returned error wraps the underlying
cause behind "Fail to check if artifact is unique", again with no other
collaborator call and in particular no compensating delete. -/
theorem generateArtifact_uniqueness_failures
    (msg : MultipartGenerateArtifactMsg) (uuid e : String)
    (up sub del : Option String) (greq dreq : Except String Link)
    (idty : Option Identity)
    (hsize : msg.Size ≤ MaxImageSize) :
    (GenerateArtifact
      ⟨Except.ok false, up, greq, dreq, sub, del, idty, uuid⟩ (some msg) =
      ⟨"", some ErrModelArtifactNotUnique,
        [Call.isArtifactUnique msg.Name msg.DeviceTypesCompatible]⟩)
    ∧ storageOrWorkflowCalls (GenerateArtifact
      ⟨Except.ok false, up, greq, dreq, sub, del, idty, uuid⟩
      (some msg)).calls = []
    ∧ (GenerateArtifact
      ⟨Except.error e, up, greq, dreq, sub, del, idty, uuid⟩ (some msg) =
      ⟨"", some ("Fail to check if artifact is unique: " ++ e),
        [Call.isArtifactUnique msg.Name msg.DeviceTypesCompatible]⟩)
    ∧ storageOrWorkflowCalls (GenerateArtifact
      ⟨Except.error e, up, greq, dreq, sub, del, idty, uuid⟩
      (some msg)).calls = [] := by
  refine ⟨?_, ?_, ?_, ?_⟩ <;>
    simp [GenerateArtifact, not_lt.mpr hsize, wrap, storageOrWorkflowCalls]

/-- C4 (witness): the uniqueness-failure statement instantiated on the
concrete fixture run with store error "error". -/
theorem generateArtifact_uniqueness_failures_witness :
    (GenerateArtifact
      ⟨Except.ok false, none, Except.ok ⟨"GET", 0⟩, Except.ok ⟨"DELETE", 0⟩,
        none, none, none, uuidFix⟩ (some msgFix) =
      ⟨"", some ErrModelArtifactNotUnique,
        [Call.isArtifactUnique msgFix.Name msgFix.DeviceTypesCompatible]⟩)
    ∧ storageOrWorkflowCalls (GenerateArtifact
      ⟨Except.ok false, none, Except.ok ⟨"GET", 0⟩, Except.ok ⟨"DELETE", 0⟩,
        none, none, none, uuidFix⟩ (some msgFix)).calls = []
    ∧ (GenerateArtifact
      ⟨Except.error "error", none, Except.ok ⟨"GET", 0⟩,
        Except.ok ⟨"DELETE", 0⟩, none, none, none, uuidFix⟩ (some msgFix) =
      ⟨"", some ("Fail to check if artifact is unique: " ++ "error"),
        [Call.isArtifactUnique msgFix.Name msgFix.DeviceTypesCompatible]⟩)
    ∧ storageOrWorkflowCalls (GenerateArtifact
      ⟨Except.error "error", none, Except.ok ⟨"GET", 0⟩,
        Except.ok ⟨"DELETE", 0⟩, none, none, none, uuidFix⟩
      (some msgFix)).calls = [] :=
  generateArtifact_uniqueness_failures msgFix uuidFix "error" none none none
    (Except.ok ⟨"GET", 0⟩) (Except.ok ⟨"DELETE", 0⟩) none (by decide)

/-- C5: the workflows client's submission succeeds (returns nil) exactly
when the engine answers 201 Created; any other HTTP status yields the
error "failed to start workflow: generate_artifact"; and a submission
failure at the workflow stage of the saga triggers compensation: the
uploaded object is deleted once and the submission-failure error is
reported with an empty artifact id. -/
theorem startGenerateArtifact_accepted_only_and_compensation :
    (∀ r : HTTPResponse,
      StartGenerateArtifact (Except.ok r) = none
        ↔ r.StatusCode = StatusCreated)
    ∧ (∀ r : HTTPResponse, r.StatusCode ≠ StatusCreated →
        StartGenerateArtifact (Except.ok r)
          = some "failed to start workflow: generate_artifact")
    ∧ (∀ (msg : MultipartGenerateArtifactMsg) (uuid : String) (gl dl : Link)
        (idty : Option Identity) (r : HTTPResponse),
        msg.Size ≤ MaxImageSize → r.StatusCode ≠ StatusCreated →
        (GenerateArtifact
          ⟨Except.ok true, none, Except.ok gl, Except.ok dl,
            StartGenerateArtifact (Except.ok r), none, idty, uuid⟩
          (some msg)).artifactID = ""
        ∧ (GenerateArtifact
          ⟨Except.ok true, none, Except.ok gl, Except.ok dl,
            StartGenerateArtifact (Except.ok r), none, idty, uuid⟩
          (some msg)).err
          = some "failed to start workflow: generate_artifact"
        ∧ deleteKeys (GenerateArtifact
          ⟨Except.ok true, none, Except.ok gl, Except.ok dl,
            StartGenerateArtifact (Except.ok r), none, idty, uuid⟩
          (some msg)).calls = [uuid]) := by
  refine ⟨?_, ?_, ?_⟩
  · intro r
    by_cases hc : r.StatusCode = StatusCreated <;>
      simp [StartGenerateArtifact, hc]
  · intro r hc
    simp [StartGenerateArtifact, hc]
  · intro msg uuid gl dl idty r hsize hc
    have hsub : StartGenerateArtifact (Except.ok r)
        = some "failed to start workflow: generate_artifact" := by
      simp [StartGenerateArtifact, hc]
    rw [hsub]
    refine ⟨?_, ?_, ?_⟩ <;>
      simp [GenerateArtifact, not_lt.mpr hsize, deleteKeys]

/-- C5 (witness): the submission statement instantiated at status 201
(accepted), status 400 (rejected) and a concrete compensating run. -/
theorem startGenerateArtifact_accepted_only_and_compensation_witness :
    StartGenerateArtifact (Except.ok ⟨201⟩) = none
    ∧ StartGenerateArtifact (Except.ok ⟨400⟩)
        = some "failed to start workflow: generate_artifact"
    ∧ deleteKeys (GenerateArtifact
        ⟨Except.ok true, none, Except.ok ⟨"GET", 0⟩, Except.ok ⟨"DELETE", 0⟩,
          StartGenerateArtifact (Except.ok ⟨400⟩), none, none, uuidFix⟩
        (some msgFix)).calls = [uuidFix] :=
  ⟨(startGenerateArtifact_accepted_only_and_compensation.1 ⟨201⟩).mpr rfl,
   startGenerateArtifact_accepted_only_and_compensation.2.1 ⟨400⟩ (by decide),
   (startGenerateArtifact_accepted_only_and_compensation.2.2 msgFix uuidFix
      ⟨"GET", 0⟩ ⟨"DELETE", 0⟩ none ⟨400⟩ (by decide) (by decide)).2.2⟩

/-- C6: on the full success path the saga returns the freshly generated
artifact id with nil error; it is non-empty, equals the key passed to
`UploadArtifact`, and equals the `ArtifactID` field of the build request
submitted to the workflow trigger client. -/
theorem generateArtifact_success_returns_upload_key
    (msg : MultipartGenerateArtifactMsg) (uuid : String) (gl dl : Link)
    (idty : Option Identity)
    (hsize : msg.Size ≤ MaxImageSize) (huuid : uuid ≠ "") :
    (GenerateArtifact
      ⟨Except.ok true, none, Except.ok gl, Except.ok dl,
        none, none, idty, uuid⟩ (some msg)).err = none
    ∧ (GenerateArtifact
      ⟨Except.ok true, none, Except.ok gl, Except.ok dl,
        none, none, idty, uuid⟩ (some msg)).artifactID = uuid
    ∧ (GenerateArtifact
      ⟨Except.ok true, none, Except.ok gl, Except.ok dl,
        none, none, idty, uuid⟩ (some msg)).artifactID ≠ ""
    ∧ uploadKeys (GenerateArtifact
      ⟨Except.ok true, none, Except.ok gl, Except.ok dl,
        none, none, idty, uuid⟩ (some msg)).calls = [uuid]
    ∧ (submittedMsgs (GenerateArtifact
      ⟨Except.ok true, none, Except.ok gl, Except.ok dl,
        none, none, idty, uuid⟩ (some msg)).calls).map
      MultipartGenerateArtifactMsg.ArtifactID = [uuid] := by
  refine ⟨?_, ?_, ?_, ?_, ?_⟩ <;>
    simp [GenerateArtifact, not_lt.mpr hsize, uploadKeys, submittedMsgs, huuid]

/-- C6 (witness): the success statement instantiated on the concrete
fixture run. -/
theorem generateArtifact_success_returns_upload_key_witness :
    (GenerateArtifact
      ⟨Except.ok true, none, Except.ok ⟨"GET", 0⟩, Except.ok ⟨"DELETE", 0⟩,
        none, none, none, uuidFix⟩ (some msgFix)).err = none
    ∧ (GenerateArtifact
      ⟨Except.ok true, none, Except.ok ⟨"GET", 0⟩, Except.ok ⟨"DELETE", 0⟩,
        none, none, none, uuidFix⟩ (some msgFix)).artifactID = uuidFix
    ∧ (GenerateArtifact
      ⟨Except.ok true, none, Except.ok ⟨"GET", 0⟩, Except.ok ⟨"DELETE", 0⟩,
        none, none, none, uuidFix⟩ (some msgFix)).artifactID ≠ ""
    ∧ uploadKeys (GenerateArtifact
      ⟨Except.ok true, none, Except.ok ⟨"GET", 0⟩, Except.ok ⟨"DELETE", 0⟩,
        none, none, none, uuidFix⟩ (some msgFix)).calls = [uuidFix]
    ∧ (submittedMsgs (GenerateArtifact
      ⟨Except.ok true, none, Except.ok ⟨"GET", 0⟩, Except.ok ⟨"DELETE", 0⟩,
        none, none, none, uuidFix⟩ (some msgFix)).calls).map
      MultipartGenerateArtifactMsg.ArtifactID = [uuidFix] :=
  generateArtifact_success_returns_upload_key msgFix uuidFix
    ⟨"GET", 0⟩ ⟨"DELETE", 0⟩ none (by decide) (by decide)

/-- C7: the build request submitted to the workflow trigger client
carries the tenant of the identity on the execution context when one is
present, and an empty tenant field when none is, whatever the submission
or compensation outcome. -/
theorem generateArtifact_submitted_tenant
    (msg : MultipartGenerateArtifactMsg) (uuid : String) (gl dl : Link)
    (sub del : Option String) (idty : Identity)
    (hsize : msg.Size ≤ MaxImageSize) :
    (submittedMsgs (GenerateArtifact
      ⟨Except.ok true, none, Except.ok gl, Except.ok dl, sub, del,
        some idty, uuid⟩ (some msg)).calls).map
      MultipartGenerateArtifactMsg.TenantID = [idty.Tenant]
    ∧ (submittedMsgs (GenerateArtifact
      ⟨Except.ok true, none, Except.ok gl, Except.ok dl, sub, del,
        none, uuid⟩ (some msg)).calls).map
      MultipartGenerateArtifactMsg.TenantID = [""] := by
  constructor <;> (cases sub <;> cases del <;>
    simp [GenerateArtifact, not_lt.mpr hsize, submittedMsgs])

/-- C7 (witness): the tenant statement instantiated on the concrete
fixture run with tenant "tenant_id". -/
theorem generateArtifact_submitted_tenant_witness :
    (submittedMsgs (GenerateArtifact
      ⟨Except.ok true, none, Except.ok ⟨"GET", 0⟩, Except.ok ⟨"DELETE", 0⟩,
        none, none, some ⟨"subject", "tenant_id", true, false, ""⟩, uuidFix⟩
      (some msgFix)).calls).map
      MultipartGenerateArtifactMsg.TenantID = ["tenant_id"]
    ∧ (submittedMsgs (GenerateArtifact
      ⟨Except.ok true, none, Except.ok ⟨"GET", 0⟩, Except.ok ⟨"DELETE", 0⟩,
        none, none, none, uuidFix⟩ (some msgFix)).calls).map
      MultipartGenerateArtifactMsg.TenantID = [""] :=
  generateArtifact_submitted_tenant msgFix uuidFix ⟨"GET", 0⟩ ⟨"DELETE", 0⟩
    none none ⟨"subject", "tenant_id", true, false, ""⟩ (by decide)

/-- C8: whenever the upload stage is reached, the reader handed to
`UploadArtifact` is the `io.LimitedReader` wrapping the request's
payload stream with quota `Size`, and draining such a reader yields at
most `Size` bytes whatever the underlying stream offers. -/
theorem generateArtifact_upload_reader_limited
    (msg : MultipartGenerateArtifactMsg) (uuid : String)
    (up sub del : Option String) (greq dreq : Except String Link)
    (idty : Option Identity) (hsize : msg.Size ≤ MaxImageSize) :
    uploadFiles (GenerateArtifact
      ⟨Except.ok true, up, greq, dreq, sub, del, idty, uuid⟩
      (some msg)).calls = [⟨msg.FileReader, msg.Size⟩]
    ∧ ∀ stream : List Nat,
        (LimitedReader.readAll ⟨stream, msg.Size⟩).length ≤ msg.Size.toNat := by
  constructor
  · cases up <;> cases greq <;> cases dreq <;> cases sub <;> cases del <;>
      simp [GenerateArtifact, not_lt.mpr hsize, uploadFiles]
  · intro stream
    simp only [LimitedReader.readAll, List.length_take]
    exact min_le_left _ _

/-- C8 (witness): the upload-cap statement instantiated on the concrete
fixture run; in particular a stream offering more than `Size` bytes
still yields at most `Size` bytes. -/
theorem generateArtifact_upload_reader_limited_witness :
    uploadFiles (GenerateArtifact
      ⟨Except.ok true, none, Except.ok ⟨"GET", 0⟩, Except.ok ⟨"DELETE", 0⟩,
        none, none, none, uuidFix⟩
      (some msgFix)).calls = [⟨msgFix.FileReader, msgFix.Size⟩]
    ∧ (LimitedReader.readAll
        ⟨[1, 2, 3, 4, 5, 6, 7, 8, 9, 10, 11, 12], msgFix.Size⟩).length
      ≤ msgFix.Size.toNat :=
  ⟨(generateArtifact_upload_reader_limited msgFix uuidFix none none none
      (Except.ok ⟨"GET", 0⟩) (Except.ok ⟨"DELETE", 0⟩) none (by decide)).1,
   (generateArtifact_upload_reader_limited msgFix uuidFix none none none
      (Except.ok ⟨"GET", 0⟩) (Except.ok ⟨"DELETE", 0⟩) none (by decide)).2
     [1, 2, 3, 4, 5, 6, 7, 8, 9, 10, 11, 12]⟩

/-- C9: every run of `GenerateArtifact` (with the freshly generated UUID
non-empty, as `uuid.NewV4().String()` always is) returns exactly one of
two shapes: a non-empty artifact id with nil error, or an empty artifact
id with a non-nil error. -/
theorem generateArtifact_result_dichotomy
    (env : CollaboratorEnv) (req : Option MultipartGenerateArtifactMsg)
    (huuid : env.newUUID ≠ "") :
    ((GenerateArtifact env req).artifactID ≠ ""
      ∧ (GenerateArtifact env req).err = none)
    ∨ ((GenerateArtifact env req).artifactID = ""
      ∧ (GenerateArtifact env req).err ≠ none) := by
  cases req with
  | none => exact Or.inr ⟨rfl, by simp [GenerateArtifact]⟩
  | some msg =>
    by_cases hsz : MaxImageSize < msg.Size
    · exact Or.inr ⟨by simp [GenerateArtifact, hsz],
        by simp [GenerateArtifact, hsz]⟩
    · rcases h1 : env.isArtifactUnique with e | b
      · exact Or.inr ⟨by simp [GenerateArtifact, hsz, h1],
          by simp [GenerateArtifact, hsz, h1]⟩
      · cases b
        · exact Or.inr ⟨by simp [GenerateArtifact, hsz, h1],
            by simp [GenerateArtifact, hsz, h1]⟩
        · rcases h2 : env.uploadArtifact with _ | e2
          · rcases h3 : env.getRequest with e3 | gl
            · exact Or.inr ⟨by simp [GenerateArtifact, hsz, h1, h2, h3],
                by simp [GenerateArtifact, hsz, h1, h2, h3]⟩
            · rcases h4 : env.deleteRequest with e4 | dl
              · exact Or.inr
                  ⟨by simp [GenerateArtifact, hsz, h1, h2, h3, h4],
                    by simp [GenerateArtifact, hsz, h1, h2, h3, h4]⟩
              · rcases h5 : env.startGenerateArtifact with _ | e5
                · exact Or.inl
                    ⟨by simpa [GenerateArtifact, hsz, h1, h2, h3, h4, h5]
                        using huuid,
                      by simp [GenerateArtifact, hsz, h1, h2, h3, h4, h5]⟩
                · rcases h6 : env.delete with _ | e6
                  · exact Or.inr
                      ⟨by simp [GenerateArtifact, hsz, h1, h2, h3, h4, h5, h6],
                        by simp [GenerateArtifact, hsz, h1, h2, h3, h4, h5, h6]⟩
                  · exact Or.inr
                      ⟨by simp [GenerateArtifact, hsz, h1, h2, h3, h4, h5, h6],
                        by simp [GenerateArtifact, hsz, h1, h2, h3, h4, h5, h6]⟩
          · exact Or.inr ⟨by simp [GenerateArtifact, hsz, h1, h2],
              by simp [GenerateArtifact, hsz, h1, h2]⟩

/-- C9 (witness): the dichotomy statement instantiated on the concrete
fixture run. -/
theorem generateArtifact_result_dichotomy_witness :
    ((GenerateArtifact envFix (some msgFix)).artifactID ≠ ""
      ∧ (GenerateArtifact envFix (some msgFix)).err = none)
    ∨ ((GenerateArtifact envFix (some msgFix)).artifactID = ""
      ∧ (GenerateArtifact envFix (some msgFix)).err ≠ none) :=
  generateArtifact_result_dichotomy envFix (some msgFix) (by decide)

/-- C10: the JSON serialization of `model.MultipartGenerateArtifactMsg`
contains no bytes derived from the payload stream — it is invariant
under any change of `FileReader`, which is tagged `json:"-"` — and its
keys are exactly the metadata fields, the artifact id, the two signed
URIs, the tenant id and the token, in declaration order. -/
theorem multipartGenerateArtifactMsg_json_excludes_payload :
    (∀ (m : MultipartGenerateArtifactMsg) (stream : List Nat),
      marshalMultipartGenerateArtifactMsg { m with FileReader := stream }
        = marshalMultipartGenerateArtifactMsg m)
    ∧ ∀ m : MultipartGenerateArtifactMsg,
        (marshalMultipartGenerateArtifactMsg m).map Prod.fst =
          ["name", "description", "size", "device_types_compatible", "type",
           "args", "artifact_id", "get_artifact_uri", "delete_artifact_uri",
           "tenant_id", "token"] :=
  ⟨fun _ _ => rfl, fun _ => rfl⟩
